import Mathlib

/-!
Verification of the observable identification / deduplication / creation
subsystem of the OpenCTI MCP server (files `opencti_mcp/observables.py`,
`opencti_mcp/client.py`, `opencti_mcp/server.py`).

The Python code is shallowly embedded: JSON dictionary fields that the code
inspects are modelled by a three-valued type (`JField`: key absent, key
present with `null`, key present with a string) because the code runs
`str(node.get(k, "")).lower()` on them, which distinguishes those three
cases; Python exceptions are modelled by an explicit error type threaded
through `Except`; external GraphQL calls are modelled by an oracle value
describing the collaborator's response, and the external calls a code path
issues are returned as an explicit call log.

String primitives: Python `str.strip` / `str.lower` are modelled on the
ASCII range (every string the claims exercise is ASCII).  Python's regex
anchor `$` also matches just before a single trailing newline, which the
embedding reproduces (`pyDollar`).
-/

deriving instance DecidableEq for Except

namespace OpenCTI

/-- ASCII whitespace characters recognised by Python `str.strip`
(the Unicode space characters Python also strips are irrelevant to the
claims and not modelled). -/
def pySpace (c : Char) : Bool :=
  c = ' ' || c = '\t' || c = '\n' || c = '\r' || c = '\x0b' || c = '\x0c'

/-- Python `str.lower` restricted to ASCII (maps `A`..`Z` to `a`..`z`;
the Unicode case foldings Python also applies are irrelevant to the claims
and not modelled).  Written as an explicit case table so that facts about
it reduce by decision per branch. -/
def pyCharLower (c : Char) : Char :=
  if c = 'A' then 'a' else if c = 'B' then 'b' else if c = 'C' then 'c'
  else if c = 'D' then 'd' else if c = 'E' then 'e' else if c = 'F' then 'f'
  else if c = 'G' then 'g' else if c = 'H' then 'h' else if c = 'I' then 'i'
  else if c = 'J' then 'j' else if c = 'K' then 'k' else if c = 'L' then 'l'
  else if c = 'M' then 'm' else if c = 'N' then 'n' else if c = 'O' then 'o'
  else if c = 'P' then 'p' else if c = 'Q' then 'q' else if c = 'R' then 'r'
  else if c = 'S' then 's' else if c = 'T' then 't' else if c = 'U' then 'u'
  else if c = 'V' then 'v' else if c = 'W' then 'w' else if c = 'X' then 'x'
  else if c = 'Y' then 'y' else if c = 'Z' then 'z' else c

/-- Python `str.lower` on a whole string (ASCII range). -/
def pyLowerS (s : String) : String := ⟨s.data.map pyCharLower⟩

/-- `strip` on the character list: drop leading and trailing whitespace. -/
def stripList (l : List Char) : List Char :=
  ((l.dropWhile pySpace).reverse.dropWhile pySpace).reverse

/-- Python `str.strip()`. -/
def pyStripS (s : String) : String := ⟨stripList s.data⟩

/-- Python `str.split(sep)` for a single-character separator: always returns
at least one part and keeps empty parts. -/
def splitOnChar (sep : Char) : List Char → List (List Char)
  | [] => [[]]
  | c :: rest =>
    let r := splitOnChar sep rest
    if c = sep then [] :: r
    else
      match r with
      | h :: t => (c :: h) :: t
      | [] => [[c]]

/-- Python regex semantics of a pattern of the form `^core$` under `re.match`:
the match succeeds on `l` itself, or on `l` minus one trailing newline
(Python's `$` also matches just before a final newline). -/
def pyDollar (core : List Char → Bool) (l : List Char) : Bool :=
  core l ||
    (match l.reverse with
     | c :: r => c = '\n' && core r.reverse
     | [] => false)

/-! ## Value classifier (`opencti_mcp/observables.py`) -/

/-- ASCII decimal digit. -/
def pyIsDigit (c : Char) : Bool := '0' ≤ c && c ≤ '9'

/-- The character class `[A-Fa-f0-9]` of `HASH_REGEX`, which is also the
character set of CPython's `_HEX_DIGITS`, written out explicitly. -/
def hexCharList : List Char :=
  ['F', 'E', 'D', 'C', 'B', 'A',
   'f', 'e', 'd', 'c', 'b', 'a',
   '9', '8', '7', '6', '5', '4', '3', '2', '1', '0']

/-- ASCII hexadecimal digit (`[A-Fa-f0-9]`). -/
def pyIsHexChar (c : Char) : Bool := hexCharList.contains c

/-- Decimal value of a digit list (the digits are already validated). -/
def decVal (l : List Char) : Nat :=
  l.foldl (fun acc c => acc * 10 + (c.toNat - '0'.toNat)) 0

/-- One dotted-quad octet, as validated by CPython's
`IPv4Address._parse_octet`: 1-3 ASCII decimal digits, no leading zero
(unless the octet is exactly "0"), value at most 255. -/
def isOctet (p : List Char) : Bool :=
  !p.isEmpty && p.length ≤ 3 && p.all pyIsDigit &&
    (p.length = 1 || p.headD '0' ≠ '0') && decVal p ≤ 255

/-- CPython `IPv4Address` parsing on a character list: reject `/`, split on
`.`, require exactly 4 valid octets. -/
def pyIsIPv4l (l : List Char) : Bool :=
  !l.contains '/' &&
    (let ps := splitOnChar '.' l
     ps.length = 4 && ps.all isOctet)

def pyIsIPv4 (s : String) : Bool := pyIsIPv4l s.data

/-- One IPv6 hextet, as validated by CPython's
`IPv6Address._parse_hextet`: 1-4 hex digits. -/
def validHextet (p : List Char) : Bool :=
  !p.isEmpty && p.length ≤ 4 && p.all pyIsHexChar

/-- Python `str.partition` at the first `%`: the part before it, and
(if a `%` occurs) the part after it. -/
def pyPartitionPct : List Char → List Char × Option (List Char)
  | [] => ([], none)
  | c :: rest =>
    if c = '%' then ([], some rest)
    else
      let (a, sc) := pyPartitionPct rest
      (c :: a, sc)

/-- CPython `IPv6Address._ip_int_from_string` as a validity predicate
(scope id already removed).  Mirrors the CPython checks: at least 3
colon-separated parts; an embedded dotted-quad in the last part is replaced
by two hextets; at most 9 parts; at most one empty interior part (the `::`);
an empty first (resp. last) part is only allowed when it forms the leading
(resp. trailing) end of the `::`; at least one hextet must be skipped by the
`::`; every non-empty part is a valid hextet. -/
def pyIsIPv6core (addr : List Char) : Bool :=
  !addr.isEmpty &&
    (let parts0 := splitOnChar ':' addr
     decide (parts0.length ≥ 3) &&
       (let lastP := parts0.getLastD []
        let partsOpt : Option (List (List Char)) :=
          if lastP.contains '.' then
            if pyIsIPv4l lastP then some (parts0.dropLast ++ [['0'], ['0']])
            else none
          else some parts0
        match partsOpt with
        | none => false
        | some parts =>
          decide (parts.length ≤ 9) &&
            (let interior := (parts.drop 1).dropLast
             let nE := interior.countP (fun p => p.isEmpty)
             let hd := parts.headD []
             let lst := parts.getLastD []
             if nE = 0 then
               parts.length = 8 && !hd.isEmpty && !lst.isEmpty &&
                 parts.all validHextet
             else if nE = 1 then
               let skipIdx := 1 + interior.findIdx (fun p => p.isEmpty)
               let hiOk := !hd.isEmpty || skipIdx = 1
               let loOk := !lst.isEmpty || skipIdx = parts.length - 2
               let hi := if hd.isEmpty then 0 else skipIdx
               let lo := if lst.isEmpty then 0 else parts.length - skipIdx - 1
               hiOk && loOk && decide (hi + lo < 8) &&
                 parts.all (fun p => p.isEmpty || validHextet p)
             else false)))

/-- CPython `IPv6Address` string parsing: reject `/`, split off an optional
non-empty `%scope` (which must not itself contain `%`), validate the
address part. -/
def pyIsIPv6 (s : String) : Bool :=
  !s.data.contains '/' &&
    (let (addr, sc) := pyPartitionPct s.data
     (match sc with
      | none => true
      | some scope => !scope.isEmpty && !scope.contains '%') &&
       pyIsIPv6core addr)

/-- `_is_ip_address`: `ipaddress.ip_address(value)` succeeds, i.e. the
value parses as an IPv4 or an IPv6 address literal. -/
def is_ip_address (value : String) : Bool := pyIsIPv4 value || pyIsIPv6 value

/-- `HASH_LENGTHS`: valid hash lengths (MD5=32, SHA-1=40, SHA-256=64,
SHA-512=128). -/
def HASH_LENGTHS : List Nat := [32, 40, 64, 128]

/-- The core of `HASH_REGEX` (`^[A-Fa-f0-9]+$` without the `$`-newline
allowance): one or more hex characters. -/
def hashCore (l : List Char) : Bool := !l.isEmpty && l.all pyIsHexChar

/-- `_is_hash`: lower-case the value; its length must be a valid hash
length and it must match `HASH_REGEX` (whose `$` tolerates one trailing
newline, per Python regex semantics). -/
def is_hash (value : String) : Bool :=
  let lower := pyLowerS value
  decide (lower.length ∈ HASH_LENGTHS) && pyDollar hashCore lower.data

/-- Characters allowed in a domain label: `[A-Za-z0-9-]` (ASCII). -/
def labelChar (c : Char) : Bool := c.isAlpha || pyIsDigit c || c = '-'

/-- A non-final label of `DOMAIN_REGEX`: `(?!-)[A-Za-z0-9-]{1,63}(?<!-)`,
i.e. 1-63 label characters, neither starting nor ending with `-`. -/
def isLabelL (p : List Char) : Bool :=
  !p.isEmpty && p.length ≤ 63 && p.all labelChar &&
    p.headD '-' ≠ '-' && p.getLastD '-' ≠ '-'

/-- The final label (TLD) of `DOMAIN_REGEX`: `[A-Za-z]{2,63}`. -/
def isTldL (p : List Char) : Bool :=
  decide (2 ≤ p.length) && p.length ≤ 63 && p.all Char.isAlpha

/-- The core of `DOMAIN_REGEX`
`^(?!-)[A-Za-z0-9-]{1,63}(?<!-)(?:\.(?!-)[A-Za-z0-9-]{1,63}(?<!-))*\.[A-Za-z]{2,63}$`
(without the `$`-newline allowance).  Because no label may contain a dot,
the regex matches exactly when the dot-separated decomposition of the
string has at least two parts, every part except the last is a valid label,
and the last part is a valid TLD; the decomposition is unique, so the
backtracking of the `(?: ... )*` group cannot produce any other reading. -/
def domainCore (l : List Char) : Bool :=
  match (splitOnChar '.' l).reverse with
  | tld :: l1 :: rest => isTldL tld && (l1 :: rest).all isLabelL
  | _ => false

/-- `_is_domain`: `DOMAIN_REGEX.match(value)` (the `$` tolerates one
trailing newline, per Python regex semantics). -/
def is_domain (value : String) : Bool := pyDollar domainCore value.data

/-- `ObservableKind`: the closed enumeration of observable kinds. -/
inductive ObservableKind where
  | ip
  | domain
  | hash
deriving DecidableEq

/-- `infer_observable_type`: strip the value; empty yields none; then IP
test, hash test, domain test, in that order. -/
def infer_observable_type (value : String) : Option ObservableKind :=
  let candidate := pyStripS value
  if candidate = "" then none
  else if is_ip_address candidate then some .ip
  else if is_hash candidate then some .hash
  else if is_domain candidate then some .domain
  else none

/-- `get_hash_algorithm`: length-based lookup, raising `ValueError` (here:
`Except.error` with the exact message) for any unsupported length. -/
def get_hash_algorithm (hashValue : String) : Except String String :=
  if hashValue.length = 32 then .ok "MD5"
  else if hashValue.length = 40 then .ok "SHA-1"
  else if hashValue.length = 64 then .ok "SHA-256"
  else if hashValue.length = 128 then .ok "SHA-512"
  else
    .error ("Invalid hash length " ++ toString hashValue.length ++
      ". Expected one of: [32, 40, 64, 128]")

/-! ## Remote records and the match engine (`opencti_mcp/client.py`) -/

/-- A JSON dictionary entry as the Python code can observe it through
`node.get(key, default)`: the key may be absent, present with JSON `null`
(Python `None`), or present with a string.  (The GraphQL schema types the
inspected fields as nullable strings, so these are the reachable cases.) -/
inductive JField where
  | absent
  | null
  | str (s : String)
deriving DecidableEq

/-- `str(node.get(key, "")).lower()` — the comparison string the match
engine builds from a field: an absent key contributes `""`, a `null` value
contributes `str(None).lower() = "none"`, a string contributes its
lower-casing. -/
def JField.compareStr : JField → String
  | .absent => ""
  | .null => "none"
  | .str s => pyLowerS s

/-- `node.get(key)` (default `None`): absent and `null` both read as
nothing. -/
def JField.getOpt : JField → Option String
  | .absent => none
  | .null => none
  | .str s => some s

/-- The value `node.get(key)` contributes to a Python `or`-chain: only a
present, non-empty string is truthy. -/
def JField.truthyStr : JField → Option String
  | .str s => if s = "" then none else some s
  | _ => none

/-- One entry of a node's `hashes` list (`{algorithm, hash}`). -/
structure HashEntry where
  algorithm : JField
  hash : JField
deriving DecidableEq

/-- The `hashes` key of a node: absent, `null`, or a list of entries.
`node.get("hashes") or []` collapses the first two (and an empty list) to
`[]`. -/
inductive JHashes where
  | absent
  | null
  | entries (l : List HashEntry)
deriving DecidableEq

def JHashes.toList : JHashes → List HashEntry
  | .absent => []
  | .null => []
  | .entries l => l

/-- A candidate record as returned inside a search edge.  Only the keys the
code inspects are modelled; `otherKeys` records whether the dictionary
carries any further keys (which matter only for Python truthiness of the
whole dictionary). -/
structure Node where
  id : JField
  standard_id : JField
  entity_type : JField
  observable_value : JField
  value : JField
  name : JField
  hashes : JHashes
  otherKeys : Bool
deriving DecidableEq

/-- The empty dictionary `{}` as a `Node`. -/
def emptyNode : Node :=
  ⟨.absent, .absent, .absent, .absent, .absent, .absent, .absent, false⟩

/-- Python truthiness of the node dictionary: `not node` holds exactly when
the dictionary is empty. -/
def nodeEmptyB (n : Node) : Bool := n = emptyNode

/-- One element of the `edges` list: either JSON `null`, or a dictionary
whose `node` key is absent, `null`, or a node. -/
inductive Edge where
  | null
  | mk (node : Option Node)
deriving DecidableEq

/-- `(edge or {}).get("node") or {}`: every degenerate shape collapses to
the empty dictionary (an empty node dictionary is itself falsy and also
collapses). -/
def Edge.nodeOf : Edge → Node
  | .null => emptyNode
  | .mk none => emptyNode
  | .mk (some n) => n

/-- `_match_observable_node`: skip an empty node; compare the target against
the three coerced value fields; otherwise against each hash entry's coerced
hash; return the node on the first hit. -/
def match_observable_node (edge : Edge) (target : String) : Option Node :=
  let node := edge.nodeOf
  if nodeEmptyB node then none
  else
    let observed := [node.observable_value.compareStr,
                     node.value.compareStr,
                     node.name.compareStr]
    if target ∈ observed then some node
    else if node.hashes.toList.any (fun e => e.hash.compareStr = target) then
      some node
    else none

/-- The scanning loop of `find_observable_by_value`: return the node of the
first edge that `_match_observable_node` accepts (the returned node is a
non-empty dictionary, hence truthy, so the walrus `if node := ...` takes
it), `None` when no edge matches. -/
def findMatchLoop (edges : List Edge) (target : String) : Option Node :=
  match edges with
  | [] => none
  | e :: rest =>
    match match_observable_node e target with
    | some n => some n
    | none => findMatchLoop rest target

/-! ## Exceptions and the GraphQL transport -/

/-- The Python exception values the modelled code paths can raise, keyed by
their exception class: `OpenCTIAPIError` (a `RuntimeError` subclass defined
in `exceptions.py`), `ToolError` (from `fastmcp`), an `httpx` status/network
error (raised by `response.raise_for_status()` and not caught by the
`except OpenCTIAPIError` handlers), and a `KeyError` from a mandatory
subscript. -/
inductive PyExc where
  | openCTIAPIError (msg : String)
  | toolError (msg : String)
  | httpxStatusError (msg : String)
  | keyError (key : String)
deriving DecidableEq

/-- The exception class name — the "error kind" a Python caller can
distinguish with `except` clauses. -/
def PyExc.className : PyExc → String
  | .openCTIAPIError _ => "OpenCTIAPIError"
  | .toolError _ => "ToolError"
  | .httpxStatusError _ => "HTTPStatusError"
  | .keyError _ => "KeyError"

/-- `wrap_api_error`: convert a caught exception's message into a
`ToolError`, substituting the fallback when the stripped message is
empty. -/
def wrap_api_error (msg fallbackMessage : String) : PyExc :=
  .toolError (if pyStripS msg = "" then fallbackMessage else pyStripS msg)

/-- The outcome of one HTTP GraphQL round trip, as `graphql_query` sees it:
a transport/status failure, a 200 body that is not JSON, or a parsed
payload carrying the `errors` list (Python truthiness: non-empty list) and
the typed `data` part. -/
inductive GraphQLWire (α : Type) where
  | transportError (msg : String)
  | invalidJson (text : String)
  | response (errors : List String) (data : α)
deriving DecidableEq

/-- `_truncate_text`: strip, cap at 200 characters with an ellipsis. -/
def truncate_text (text : String) : String :=
  let snippet := pyStripS text
  if snippet.length > 200 then ⟨snippet.data.take 200⟩ ++ "…" else snippet

/-- `graphql_query`: transport failures propagate as `httpx` errors; a
non-JSON body raises `OpenCTIAPIError`; a truthy `errors` entry raises
`OpenCTIAPIError` with the "GraphQL error: " prefix; otherwise the `data`
part is returned.  (The textual rendering of the errors list is modelled
with `toString`.) -/
def graphql_query {α : Type} (w : GraphQLWire α) : Except PyExc α :=
  match w with
  | .transportError msg => .error (.httpxStatusError msg)
  | .invalidJson text =>
    .error (.openCTIAPIError
      ("Invalid JSON response from OpenCTI GraphQL API: " ++ truncate_text text))
  | .response errors d =>
    if errors = [] then .ok d
    else .error (.openCTIAPIError ("GraphQL error: " ++ toString errors))

/-! ## Client operations (`opencti_mcp/client.py`) -/

/-- The `data` part of the search query response, reduced to the part the
code reads: `stixCyberObservables.edges` (missing containers default to the
empty list). -/
structure SearchData where
  edges : List Edge
deriving DecidableEq

/-- `find_observable_by_value`: run the search query, lower-case the value
once, scan the edges for the first match. -/
def find_observable_by_value (value : String) (w : GraphQLWire SearchData) :
    Except PyExc (Option Node) :=
  match graphql_query w with
  | .error e => .error e
  | .ok d => .ok (findMatchLoop d.edges (pyLowerS value))

/-- The `data` part of a creation mutation response:
`data.get("stixCyberObservableAdd")`, where `none` stands for an absent or
`null` entry. -/
structure CreateData where
  created : Option Node
deriving DecidableEq

/-- `"id" in created`: the key is present (it may still be `null`). -/
def hasIdKey (n : Node) : Bool := n.id ≠ .absent

/-- `_execute_create_mutation`: run the mutation; if the `data` lacks a
truthy `stixCyberObservableAdd` entry carrying an `id` key, raise
`OpenCTIAPIError("Failed to create observable.")`. -/
def execute_create_mutation (w : GraphQLWire CreateData) : Except PyExc Node :=
  match graphql_query w with
  | .error e => .error e
  | .ok d =>
    match d.created with
    | none => .error (.openCTIAPIError "Failed to create observable.")
    | some n =>
      if nodeEmptyB n || !hasIdKey n then
        .error (.openCTIAPIError "Failed to create observable.")
      else .ok n

/-- The external calls a code path issues, in order. -/
inductive ExtCall where
  | searchCall (term : String) (types : List String) (first : Nat)
  | mutationCall (stixType : String) (value : String)
  | enrichCall (entityId : Option String) (connectorId : String)
deriving DecidableEq

/-- `client.create_observable`: select the kind-specific mutation.  For
`ip`, the value is re-parsed to pick IPv4 vs IPv6 and an invalid value
raises before any call; for `hash`, `get_hash_algorithm` may raise before
any call (its `ValueError` message is re-raised as `OpenCTIAPIError`).  The
call log records the mutation actually issued. -/
def client_create_observable (value : String) (observableType : ObservableKind)
    (w : GraphQLWire CreateData) : Except PyExc Node × List ExtCall :=
  match observableType with
  | .domain => (execute_create_mutation w, [.mutationCall "Domain-Name" value])
  | .ip =>
    if pyIsIPv4 value then
      (execute_create_mutation w, [.mutationCall "IPv4-Addr" value])
    else if pyIsIPv6 value then
      (execute_create_mutation w, [.mutationCall "IPv6-Addr" value])
    else
      (.error (.openCTIAPIError ("Invalid IP address value: " ++ value)), [])
  | .hash =>
    match get_hash_algorithm value with
    | .error msg => (.error (.openCTIAPIError msg), [])
    | .ok algo =>
      (execute_create_mutation w, [.mutationCall "Artifact" (algo ++ ":" ++ value)])

/-- The `askEnrichment` part of the enrichment mutation response: the
dictionary under `stixCoreObjectEdit.askEnrichment`, with its `id` entry
and a flag for further keys. -/
structure EnrichNode where
  id : JField
  otherKeys : Bool
deriving DecidableEq

/-- Python truthiness of the `askEnrichment` dictionary. -/
def enrichNodeEmptyB (n : EnrichNode) : Bool := n.id = .absent && !n.otherKeys

/-- The `data` part of the enrichment mutation response. -/
structure EnrichData where
  askEnrichment : Option EnrichNode
deriving DecidableEq

/-- `ask_enrichment`: run the mutation; raise `OpenCTIAPIError` unless a
truthy `askEnrichment` dictionary with an `id` key came back; return the
`id` value (which may be `null`). -/
def ask_enrichment (w : GraphQLWire EnrichData) : Except PyExc (Option String) :=
  match graphql_query w with
  | .error e => .error e
  | .ok d =>
    match d.askEnrichment with
    | none => .error (.openCTIAPIError "Failed to request enrichment for the observable.")
    | some en =>
      if enrichNodeEmptyB en || en.id = .absent then
        .error (.openCTIAPIError "Failed to request enrichment for the observable.")
      else
        .ok (match en.id with
             | .str s => some s
             | _ => none)

/-! ## Server tools (`opencti_mcp/server.py`) -/

/-- The string spelling of a kind (the Python `ObservableKind` values are
the strings themselves). -/
def kindStr : ObservableKind → String
  | .ip => "ip"
  | .domain => "domain"
  | .hash => "hash"

/-- `OBSERVABLE_TYPES`: kind to STIX record-type tags. -/
def OBSERVABLE_TYPES : ObservableKind → List String
  | .ip => ["IPv4-Addr", "IPv6-Addr"]
  | .domain => ["Domain-Name"]
  | .hash => ["Artifact", "StixFile"]

/-- The `AmbiguousInput` rejection of `_normalize_observable_type`. -/
def ambiguousInputMsg : String :=
  "Unable to infer value type. Please provide \x27value_type\x27 as ip, domain, or hash."

/-- The invalid explicit-kind rejection of `_normalize_observable_type`. -/
def invalidTypeMsg : String :=
  "Parameter \x27value_type\x27 must be one of: ip, domain, hash."

/-- The empty-value rejection of both tools. -/
def emptyValueMsg : String :=
  "Parameter \x27value\x27 must be a non-empty string."

/-- The inference branch of `_normalize_observable_type`. -/
def inferOrFail (value : String) : Except PyExc ObservableKind :=
  match infer_observable_type value with
  | some k => .ok k
  | none => .error (.toolError ambiguousInputMsg)

/-- `_normalize_observable_type`: a truthy explicit type is lower-cased and
checked against the closed enumeration; otherwise the kind is inferred from
the (raw) value, failing with the `AmbiguousInput` `ToolError` when
inference yields nothing. -/
def normalize_observable_type (value : String) (valueType : Option String) :
    Except PyExc ObservableKind :=
  match valueType with
  | some vt =>
    if vt = "" then inferOrFail value
    else
      let normalized := pyLowerS vt
      if normalized = "ip" then .ok .ip
      else if normalized = "domain" then .ok .domain
      else if normalized = "hash" then .ok .hash
      else .error (.toolError invalidTypeMsg)
  | none => inferOrFail value

/-- The result shape both observable tools return for the observable. -/
structure GatewayResult where
  status : String
  id : Option String
  entity_type : Option String
  value : String
deriving DecidableEq

/-- `observable["id"]` as a JSON value: a missing key raises `KeyError`,
a `null` reads as `none`. -/
def nodeIdVal (n : Node) : Option String :=
  match n.id with
  | .str s => some s
  | _ => none

/-- The value projection of `_format_observable_result`:
`observable.get("observable_value") or observable.get("value") or
observable.get("name") or original_value` under Python truthiness. -/
def formatValueChain (observable : Node) (originalValue : String) : String :=
  (((observable.observable_value.truthyStr).orElse
      (fun _ => observable.value.truthyStr)).orElse
      (fun _ => observable.name.truthyStr)).getD originalValue

/-- `_format_observable_result`: build the uniform result; the mandatory
`observable["id"]` subscript raises `KeyError` when the key is absent. -/
def format_observable_result (observable : Node) (originalValue : String)
    (status : String) : Except PyExc GatewayResult :=
  if observable.id = .absent then .error (.keyError "id")
  else
    .ok { status := status,
          id := nodeIdVal observable,
          entity_type := observable.entity_type.getOpt,
          value := formatValueChain observable originalValue }

/-- The collaborator responses a `create_observable` invocation can
consume. -/
structure CreateOracle where
  searchWire : GraphQLWire SearchData
  createWire : GraphQLWire CreateData
deriving DecidableEq

/-- The `create_observable` tool: reject an empty/whitespace-only value;
normalize the kind (raising before any external call); search for an
existing record (wrapping `OpenCTIAPIError` into `ToolError`); return the
`exists` result on a match, otherwise issue the kind-specific creation and
return the `created` result.  The second component is the list of external
calls issued, in order. -/
def create_observable (value : String) (valueType : Option String)
    (o : CreateOracle) : Except PyExc GatewayResult × List ExtCall :=
  if value = "" || pyStripS value = "" then
    (.error (.toolError emptyValueMsg), [])
  else
    match normalize_observable_type value valueType with
    | .error e => (.error e, [])
    | .ok kind =>
      let allowedTypes := OBSERVABLE_TYPES kind
      let searchLog := [ExtCall.searchCall (pyStripS value) allowedTypes 10]
      match find_observable_by_value (pyStripS value) o.searchWire with
      | .error (.openCTIAPIError m) =>
        (.error (wrap_api_error m "Failed to search for observable in OpenCTI."),
         searchLog)
      | .error e => (.error e, searchLog)
      | .ok (some existing) =>
        (format_observable_result existing value "exists", searchLog)
      | .ok none =>
        match client_create_observable (pyStripS value) kind o.createWire with
        | (.error (.openCTIAPIError m), calls) =>
          (.error (wrap_api_error m "Failed to create observable in OpenCTI."),
           searchLog ++ calls)
        | (.error e, calls) => (.error e, searchLog ++ calls)
        | (.ok created, calls) =>
          (format_observable_result created value "created", searchLog ++ calls)

/-- The configuration and collaborator responses an
`ask_virustotal_enrichment` invocation can consume (`connectorId` is
`settings.virustotal_connector_id`; `none` or the empty string is the
unconfigured case). -/
structure EnrichOracle where
  connectorId : Option String
  searchWire : GraphQLWire SearchData
  enrichWire : GraphQLWire EnrichData
deriving DecidableEq

/-- The unconfigured-connector rejection. -/
def vtNotConfiguredMsg : String :=
  "VirusTotal connector not configured. Set VIRUSTOTAL_CONNECTOR_ID environment variable."

/-- The `NotFound` rejection of the enrichment tool. -/
def notFoundMsg (value : String) (kind : ObservableKind) : String :=
  "No observable found matching value \x27" ++ value ++ "\x27 for type \x27" ++
    kindStr kind ++ "\x27."

/-- The result shape of the enrichment tool. -/
structure EnrichResult where
  work_id : Option String
  connector_id : String
  id : Option String
  entity_type : Option String
  value : String
deriving DecidableEq

/-- The `ask_virustotal_enrichment` tool: reject an empty value; reject a
missing connector id; normalize the kind; search; fail with the `NotFound`
`ToolError` when no candidate matches (no enrichment call issued); otherwise
read the matched record's `id` (a missing key raises `KeyError` before the
call) and issue the enrichment call against it. -/
def ask_virustotal_enrichment (value : String) (valueType : Option String)
    (o : EnrichOracle) : Except PyExc EnrichResult × List ExtCall :=
  if value = "" || pyStripS value = "" then
    (.error (.toolError emptyValueMsg), [])
  else
    match o.connectorId with
    | none => (.error (.toolError vtNotConfiguredMsg), [])
    | some cid =>
      if cid = "" then (.error (.toolError vtNotConfiguredMsg), [])
      else
        match normalize_observable_type value valueType with
        | .error e => (.error e, [])
        | .ok kind =>
          let allowedTypes := OBSERVABLE_TYPES kind
          let searchLog := [ExtCall.searchCall (pyStripS value) allowedTypes 10]
          match find_observable_by_value (pyStripS value) o.searchWire with
          | .error (.openCTIAPIError m) =>
            (.error (wrap_api_error m "Failed to search for observable in OpenCTI."),
             searchLog)
          | .error e => (.error e, searchLog)
          | .ok none =>
            (.error (.toolError (notFoundMsg value kind)), searchLog)
          | .ok (some observable) =>
            if observable.id = .absent then (.error (.keyError "id"), searchLog)
            else
              let observableId := nodeIdVal observable
              let fullLog := searchLog ++ [ExtCall.enrichCall observableId cid]
              match ask_enrichment o.enrichWire with
              | .error (.openCTIAPIError m) =>
                (.error (wrap_api_error m "Failed to request enrichment from OpenCTI."),
                 fullLog)
              | .error e => (.error e, fullLog)
              | .ok workId =>
                (.ok { work_id := workId,
                       connector_id := cid,
                       id := observableId,
                       entity_type := observable.entity_type.getOpt,
                       value := formatValueChain observable value },
                 fullLog)

/-! ## Claim-side (specification-worded) definitions

These definitions restate, in the specification's own terms, the
behaviours the claims assert; the claim theorems compare them against the
source-derived definitions above. -/

/-- A field is "present and non-empty" in the sense of the projection
claim: the key carries an actual non-empty string. -/
def presentNonEmpty : JField → Bool
  | .str s => s ≠ ""
  | _ => false

/-- The string a present field carries. -/
def fieldStr : JField → String
  | .str s => s
  | _ => ""

/-- The projection fallback chain exactly as the specification words it:
`observable_value` if present and non-empty, otherwise `value`, otherwise
`name`, otherwise the original input string. -/
def specProjection (n : Node) (orig : String) : String :=
  if presentNonEmpty n.observable_value then fieldStr n.observable_value
  else if presentNonEmpty n.value then fieldStr n.value
  else if presentNonEmpty n.name then fieldStr n.name
  else orig

/-- The per-candidate field rule as the match-engine claim words it: some
present string among `observable_value`, `value`, `name`, lower-cased,
equals the target (absent fields contribute nothing). -/
def claimFieldMatch (n : Node) (target : String) : Bool :=
  [n.observable_value, n.value, n.name].any fun f =>
    match f with
    | .str s => pyLowerS s = target
    | _ => false

/-- The per-candidate hash rule as the claim words it: some hash entry
carries a string that, lower-cased, equals the target. -/
def claimHashMatch (n : Node) (target : String) : Bool :=
  n.hashes.toList.any fun e =>
    match e.hash with
    | .str s => pyLowerS s = target
    | _ => false

/-- A candidate matches in the claim's sense. -/
def claimMatches (n : Node) (target : String) : Bool :=
  claimFieldMatch n target || claimHashMatch n target

/-- First-match scanning as the claim describes it: the first candidate,
in the order received, that matches; `none` when no candidate matches. -/
def specFirstMatch (edges : List Edge) (target : String) : Option Node :=
  match edges with
  | [] => none
  | e :: rest =>
    if claimMatches e.nodeOf target then some e.nodeOf
    else specFirstMatch rest target

/-- The hostname grammar exactly as the domain claim words it: at least
two dot-separated parts, every part but the last a 1-63 character label of
`[A-Za-z0-9-]` neither starting nor ending with `-`, and the final label
2-63 alphabetic characters only. -/
def specDomainLike (s : String) : Bool :=
  decide (2 ≤ (splitOnChar '.' s.data).length) &&
    (splitOnChar '.' s.data).dropLast.all isLabelL &&
    isTldL ((splitOnChar '.' s.data).getLastD [])

/-- The string ends with a newline character. -/
def endsWithNL (s : String) : Bool :=
  match s.data.reverse with
  | c :: _ => c = '\n'
  | [] => false

/-- The string with one trailing newline removed (identity otherwise). -/
def chompNL (s : String) : String :=
  if endsWithNL s then ⟨s.data.dropLast⟩ else s

/-- The creation response lacks a usable identifier: the
`stixCyberObservableAdd` entry is absent/`null`, or is a falsy dictionary,
or has no `id` key. -/
def createdLacksId (d : CreateData) : Prop :=
  match d.created with
  | none => True
  | some n => nodeEmptyB n = true ∨ n.id = .absent

/-- The error kind (Python exception class) of a client-call outcome. -/
def excKindOf {α : Type} : Except PyExc α → Option String
  | .error e => some e.className
  | .ok _ => none

/-! ## Concrete fixtures used by witnesses and counterexamples -/

/-- A `StixFile` candidate whose `value` key is present but `null` and
whose other comparison fields are absent. -/
def c1Node : Node :=
  { id := .str "n1", standard_id := .absent, entity_type := .str "StixFile",
    observable_value := .absent, value := .null, name := .absent,
    hashes := .absent, otherKeys := false }

def c1Edges : List Edge := [.mk (some c1Node)]

/-- A candidate with an identifier but with every comparison field absent
and no hashes. -/
def c6Node : Node :=
  { id := .str "n2", standard_id := .absent, entity_type := .absent,
    observable_value := .absent, value := .absent, name := .absent,
    hashes := .absent, otherKeys := false }

/-- A string the domain grammar of the claim rejects (it contains a
64-character dot-separated label) but `DOMAIN_REGEX` accepts, because the
`$` anchor matches before the trailing newline. -/
def c7BadStr : String := "example." ++ String.mk (List.replicate 63 'a') ++ "\n"

/-- A record with an empty `observable_value`, a `null` `value` and a
usable `name`, exercising the projection fallback chain. -/
def c4Node : Node :=
  { id := .str "obs-1", standard_id := .absent, entity_type := .str "IPv4-Addr",
    observable_value := .str "", value := .null, name := .str "EXAMPLE",
    hashes := .absent, otherKeys := false }

def c4Res : GatewayResult :=
  { status := "exists", id := some "obs-1", entity_type := some "IPv4-Addr",
    value := "EXAMPLE" }

/-- A benign oracle: empty search result, creation response without a
record. -/
def oracle0 : CreateOracle :=
  { searchWire := .response [] ⟨[]⟩, createWire := .response [] ⟨none⟩ }

/-- An enrichment oracle with a configured connector and an empty search
result. -/
def enrichOracle0 : EnrichOracle :=
  { connectorId := some "conn-1", searchWire := .response [] ⟨[]⟩,
    enrichWire := .response [] ⟨none⟩ }

/-! ## Supporting lemmas -/

theorem splitOnChar_ne_nil (sep : Char) (l : List Char) : splitOnChar sep l ≠ [] := by
  induction l with
  | nil => simp [splitOnChar]
  | cons c rest ih =>
    simp only [splitOnChar]
    split
    · simp
    · cases h : splitOnChar sep rest with
      | nil => simp
      | cons a b => simp

theorem dropWhile_dropWhile (p : Char → Bool) (l : List Char) :
    (l.dropWhile p).dropWhile p = l.dropWhile p := by
  induction l with
  | nil => simp
  | cons a t ih =>
    by_cases h : p a
    · simp [List.dropWhile_cons, h, ih]
    · simp [List.dropWhile_cons, h]

theorem dropWhile_head_false (p : Char → Bool) (l : List Char) :
    ∀ c cs, l.dropWhile p = c :: cs → p c = false := by
  intro c cs h
  induction l with
  | nil => simp at h
  | cons a t ih =>
    by_cases hpa : p a
    · exact ih (by simpa [List.dropWhile_cons, hpa] using h)
    · rw [List.dropWhile_cons] at h
      simp [hpa] at h
      rw [← h.1]
      simpa using hpa

theorem stripList_idem (l : List Char) : stripList (stripList l) = stripList l := by
  unfold stripList
  set m := l.dropWhile pySpace with hm
  -- the trailing-drop result is a prefix (via reverse) of `m`
  have hsuffix : (m.reverse.dropWhile pySpace) <:+ m.reverse := List.dropWhile_suffix _
  -- leading drop of the trailing-dropped list is a no-op
  have hlead : ((m.reverse.dropWhile pySpace).reverse).dropWhile pySpace
      = (m.reverse.dropWhile pySpace).reverse := by
    cases hrev : (m.reverse.dropWhile pySpace).reverse with
    | nil => simp
    | cons c cs =>
      -- c is the head of `m` (reverse of a suffix of m.reverse is a prefix of m)
      have hpref : c :: cs <+: m := by
        have := List.IsSuffix.reverse hsuffix
        simpa [hrev] using this
      obtain ⟨t, ht⟩ := hpref
      have hc : pySpace c = false := by
        cases hmcase : m with
        | nil => rw [hmcase] at ht; simp at ht
        | cons a as =>
          have hca : c = a := by
            rw [hmcase] at ht
            exact (List.cons.injEq _ _ _ _ ▸ ht).1.symm ▸ rfl
          rw [hca]
          exact dropWhile_head_false pySpace l a as (hm ▸ hmcase)
      simp [List.dropWhile_cons, hc]
  rw [hlead, List.reverse_reverse, dropWhile_dropWhile]

theorem pyStripS_idem (s : String) : pyStripS (pyStripS s) = pyStripS s := by
  simp [pyStripS, stripList_idem]

/-- A list whose characters are all non-whitespace is unchanged by strip. -/
theorem stripList_of_no_space (l : List Char) (h : ∀ c ∈ l, pySpace c = false) :
    stripList l = l := by
  unfold stripList
  have h1 : l.dropWhile pySpace = l := by
    cases l with
    | nil => simp
    | cons a t => simp [List.dropWhile_cons, h a (by simp)]
  rw [h1]
  have h2 : l.reverse.dropWhile pySpace = l.reverse := by
    cases hr : l.reverse with
    | nil => simp
    | cons a t =>
      have ha : a ∈ l := by
        have : a ∈ l.reverse := by rw [hr]; simp
        simpa using this
      simp [List.dropWhile_cons, h a ha, hr]
  rw [h2, List.reverse_reverse]

theorem space_not_hex (c : Char) (h : pySpace c = true) : pyIsHexChar c = false := by
  unfold pySpace at h
  simp only [Bool.or_eq_true, decide_eq_true_eq] at h
  rcases h with ((((h | h) | h) | h) | h) | h <;> subst h <;> decide

theorem hex_not_space (c : Char) (h : pyIsHexChar c = true) : pySpace c = false := by
  cases hsp : pySpace c with
  | false => rfl
  | true => rw [space_not_hex c hsp] at h; exact absurd h (by simp)

theorem pyCharLower_hex (c : Char) (h : pyIsHexChar c = true) :
    pyIsHexChar (pyCharLower c) = true := by
  unfold pyIsHexChar hexCharList at h
  rw [List.elem_iff] at h
  simp only [List.mem_cons, List.not_mem_nil, or_false] at h
  rcases h with rfl | rfl | rfl | rfl | rfl | rfl | rfl | rfl | rfl | rfl | rfl |
    rfl | rfl | rfl | rfl | rfl | rfl | rfl | rfl | rfl | rfl | rfl <;> decide

theorem pyLowerS_data (s : String) : (pyLowerS s).data = s.data.map pyCharLower := rfl

theorem pyLowerS_length (s : String) : (pyLowerS s).length = s.length := by
  show (s.data.map pyCharLower).length = s.data.length
  exact List.length_map _ _

theorem string_mk_data (s : String) : String.mk s.data = s := rfl

theorem data_ne_of_ne_empty (s : String) (h : s ≠ "") : s.data ≠ [] := by
  intro hd
  exact h (by cases s; simp_all)

theorem pyLowerS_ne_empty (s : String) (h : s ≠ "") : pyLowerS s ≠ "" := by
  intro he
  apply h
  have hd : s.data.map pyCharLower = [] := congrArg String.data he
  have : s.data = [] := by simpa using hd
  cases s
  simp_all

theorem claimMatches_empty (target : String) :
    claimMatches emptyNode target = false := rfl

theorem field_hit_iff (f : JField) (target : String)
    (h1 : target ≠ "") (h2 : target ≠ "none") :
    (target = f.compareStr) ↔
      ((match f with
        | JField.str s => decide (pyLowerS s = target)
        | _ => false) = true) := by
  cases f with
  | absent => simp [JField.compareStr, h1]
  | null => simp [JField.compareStr, h2]
  | str s => simp [JField.compareStr, eq_comm]

theorem hash_hit_eq (he : HashEntry) (target : String)
    (h1 : target ≠ "") (h2 : target ≠ "none") :
    (decide (he.hash.compareStr = target)) =
      (match he.hash with
       | JField.str s => decide (pyLowerS s = target)
       | _ => false) := by
  cases hh : he.hash with
  | absent =>
    simp [JField.compareStr]
    exact fun h => h1 h.symm
  | null =>
    simp [JField.compareStr]
    exact fun h => h2 h.symm
  | str s => simp [JField.compareStr]

/-- Under a non-empty target different from `"none"`, the node matcher
agrees with the claim's per-candidate rule (absent fields contribute the
empty string and `null` fields the string `"none"`, so neither can fire). -/
theorem match_node_eq_claim (e : Edge) (target : String)
    (h1 : target ≠ "") (h2 : target ≠ "none") :
    match_observable_node e target =
      (if claimMatches e.nodeOf target then some e.nodeOf else none) := by
  unfold match_observable_node
  by_cases hemp : nodeEmptyB e.nodeOf
  · have hne : e.nodeOf = emptyNode := by
      simpa [nodeEmptyB] using hemp
    rw [hne]
    have htriv : nodeEmptyB emptyNode = true := by decide
    simp [htriv, claimMatches_empty]
  · have hfield : (target ∈ [e.nodeOf.observable_value.compareStr,
        e.nodeOf.value.compareStr, e.nodeOf.name.compareStr]) ↔
        claimFieldMatch e.nodeOf target = true := by
      simp only [List.mem_cons, List.not_mem_nil, or_false, claimFieldMatch,
        List.any_cons, List.any_nil, Bool.or_eq_true]
      rw [field_hit_iff _ _ h1 h2, field_hit_iff _ _ h1 h2,
        field_hit_iff _ _ h1 h2]
      simp
    have hhash : (e.nodeOf.hashes.toList.any
        (fun he => he.hash.compareStr = target)) =
        claimHashMatch e.nodeOf target := by
      unfold claimHashMatch
      induction e.nodeOf.hashes.toList with
      | nil => rfl
      | cons a t ih =>
        simp only [List.any_cons, ih, hash_hit_eq a target h1 h2]
    by_cases hf : claimFieldMatch e.nodeOf target = true
    · rw [if_neg (by simpa [nodeEmptyB] using hemp), if_pos (hfield.mpr hf)]
      simp [claimMatches, hf]
    · rw [if_neg (by simpa [nodeEmptyB] using hemp),
        if_neg (fun hmem => hf (hfield.mp hmem))]
      by_cases hh : claimHashMatch e.nodeOf target = true
      · rw [if_pos (by rw [hhash]; exact hh)]
        simp [claimMatches, hh]
      · rw [if_neg (by rw [hhash]; exact fun h => hh h)]
        have hfb : claimFieldMatch e.nodeOf target = false :=
          Bool.eq_false_iff.mpr hf
        have hhb : claimHashMatch e.nodeOf target = false :=
          Bool.eq_false_iff.mpr hh
        simp [claimMatches, hfb, hhb]

/-! ## Claim theorems -/

/-- C3: the hash algorithm resolver maps length 32 to MD5, 40 to SHA-1,
64 to SHA-256, 128 to SHA-512, and fails with the `InvalidHashLength`
`ValueError` (never a default algorithm) on every other length. -/
theorem c3_hash_algorithm_resolution (s : String) :
    (s.length = 32 → get_hash_algorithm s = .ok "MD5") ∧
    (s.length = 40 → get_hash_algorithm s = .ok "SHA-1") ∧
    (s.length = 64 → get_hash_algorithm s = .ok "SHA-256") ∧
    (s.length = 128 → get_hash_algorithm s = .ok "SHA-512") ∧
    (s.length ∉ HASH_LENGTHS →
      get_hash_algorithm s =
        .error ("Invalid hash length " ++ toString s.length ++
          ". Expected one of: [32, 40, 64, 128]")) := by
  refine ⟨?_, ?_, ?_, ?_, ?_⟩ <;> intro h
  · simp [get_hash_algorithm, h]
  · simp [get_hash_algorithm, h]
  · simp [get_hash_algorithm, h]
  · simp [get_hash_algorithm, h]
  · simp only [HASH_LENGTHS, List.mem_cons, List.mem_singleton, not_or] at h
    obtain ⟨h32, h40, h64, h128⟩ := h
    simp at h128
    simp [get_hash_algorithm, h32, h40, h64, h128]

theorem c3_witness :
    get_hash_algorithm "d41d8cd98f00b204e9800998ecf8427e" = .ok "MD5" ∧
    get_hash_algorithm "abc" =
      .error "Invalid hash length 3. Expected one of: [32, 40, 64, 128]" := by
  refine ⟨(c3_hash_algorithm_resolution _).1 (by decide), ?_⟩
  have := (c3_hash_algorithm_resolution "abc").2.2.2.2 (by decide)
  rw [this]
  decide

/-- C10: the classifier strips its input itself, so it is invariant under
surrounding whitespace; a whitespace-only or empty string classifies as
unknown. -/
theorem c10_classifier_strip_invariant (s : String) :
    infer_observable_type s = infer_observable_type (pyStripS s) ∧
    (pyStripS s = "" → infer_observable_type s = none) := by
  have key : pyStripS (pyStripS s) = pyStripS s := pyStripS_idem s
  constructor
  · unfold infer_observable_type
    rw [key]
  · intro h
    unfold infer_observable_type
    rw [h]
    simp

theorem c10_witness : infer_observable_type "  \t " = none :=
  (c10_classifier_strip_invariant "  \t ").2 (by decide)

/-- C2: an all-hex string whose length is a valid hash length and which
does not parse as an IP address literal classifies as `hash` (and hence
never as `domain`) — the hash test runs before the domain test. -/
theorem c2_hex_hash_precedence (s : String)
    (hhex : ∀ c ∈ s.data, pyIsHexChar c = true)
    (hlen : s.length ∈ HASH_LENGTHS)
    (hip : is_ip_address s = false) :
    infer_observable_type s = some ObservableKind.hash ∧
      infer_observable_type s ≠ some ObservableKind.domain := by
  have hnospace : ∀ c ∈ s.data, pySpace c = false :=
    fun c hc => hex_not_space c (hhex c hc)
  have hstrip : pyStripS s = s := by
    show String.mk (stripList s.data) = s
    rw [stripList_of_no_space _ hnospace]
  have hne : s ≠ "" := by
    intro h
    subst h
    exact absurd hlen (by decide)
  have hdata_ne : s.data ≠ [] := data_ne_of_ne_empty s hne
  have hlower_all : ∀ c ∈ (pyLowerS s).data, pyIsHexChar c = true := by
    intro c hc
    rw [pyLowerS_data] at hc
    rcases List.mem_map.mp hc with ⟨a, ha, rfl⟩
    exact pyCharLower_hex a (hhex a ha)
  have hlower_ne : (pyLowerS s).data ≠ [] := by
    rw [pyLowerS_data]
    simpa using hdata_ne
  have hhash : is_hash s = true := by
    unfold is_hash pyDollar hashCore
    simp only [Bool.and_eq_true, Bool.or_eq_true, decide_eq_true_eq]
    constructor
    · rw [pyLowerS_length]
      exact hlen
    · left
      simp only [Bool.and_eq_true, List.all_eq_true]
      exact ⟨by simpa [List.isEmpty_iff] using hlower_ne, hlower_all⟩
  have hmain : infer_observable_type s = some ObservableKind.hash := by
    unfold infer_observable_type
    rw [hstrip]
    simp [hne, hip, hhash]
  exact ⟨hmain, by rw [hmain]; simp⟩

theorem c2_witness :
    infer_observable_type "d41d8cd98f00b204e9800998ecf8427e" =
      some ObservableKind.hash :=
  (c2_hex_hash_precedence "d41d8cd98f00b204e9800998ecf8427e"
    (by decide) (by decide) (by decide)).1

/-- C1 counterexample: with target value `"None"` (non-empty), the scan
returns a candidate whose only present comparison datum is a `null`
`value` field — `str(None).lower()` yields `"none"` — although no string
field of the candidate equals the lower-cased target, so the claim's
description of the returned candidate is violated. -/
theorem c1_counterexample :
    findMatchLoop c1Edges (pyLowerS "None") = some c1Node ∧
    claimMatches c1Node (pyLowerS "None") = false ∧
    specFirstMatch c1Edges (pyLowerS "None") = none ∧
    ("None" : String) ≠ "" := by
  refine ⟨by decide, by decide, by decide, by decide⟩

/-- C1 (amended): for every candidate sequence and non-empty target whose
lower-casing is not the string `"none"`, the scan returns the first
candidate, in order, whose present lower-cased `observable_value`, `value`
or `name` equals the lower-cased target or whose hash list contains a
matching entry, and `none` when no candidate matches.  (A `null`-valued
field is coerced to the text `"none"` by the code, which is why that one
target value must be excluded.) -/
theorem c1_first_match (edges : List Edge) (value : String)
    (h1 : value ≠ "") (h2 : pyLowerS value ≠ "none") :
    findMatchLoop edges (pyLowerS value) = specFirstMatch edges (pyLowerS value) := by
  have ht1 : pyLowerS value ≠ "" := pyLowerS_ne_empty value h1
  induction edges with
  | nil => rfl
  | cons e rest ih =>
    simp only [findMatchLoop, specFirstMatch]
    rw [match_node_eq_claim e _ ht1 h2]
    by_cases h : claimMatches e.nodeOf (pyLowerS value) <;> simp [h, ih]

theorem c1_witness :
    findMatchLoop c1Edges (pyLowerS "EXAMPLE.com") =
      specFirstMatch c1Edges (pyLowerS "EXAMPLE.com") :=
  c1_first_match c1Edges "EXAMPLE.com" (by decide) (by decide)

/-- C6 counterexample: the empty target matches a candidate all of whose
comparison fields are absent and which carries no hashes — each absent
field contributes the empty string to the comparison set, so a target can
match a candidate via absent fields. -/
theorem c6_counterexample :
    match_observable_node (.mk (some c6Node)) "" = some c6Node ∧
    c6Node.observable_value = .absent ∧
    c6Node.value = .absent ∧
    c6Node.name = .absent ∧
    c6Node.hashes.toList = [] := by
  refine ⟨by decide, by decide, by decide, by decide, by decide⟩

/-- C6 (amended): absent fields contribute the empty string (and
`null`-valued fields the string `"none"`) to the comparison set, so for
every target other than `""` and `"none"` a candidate matches exactly when
some present string field or hash entry, lower-cased, equals the target. -/
theorem c6_absent_fields (e : Edge) (target : String)
    (h1 : target ≠ "") (h2 : target ≠ "none") :
    (match_observable_node e target).isSome = claimMatches e.nodeOf target := by
  rw [match_node_eq_claim e target h1 h2]
  by_cases h : claimMatches e.nodeOf target <;> simp [h]

theorem c6_witness :
    (match_observable_node (.mk (some c6Node)) "example.com").isSome =
      claimMatches c6Node "example.com" :=
  c6_absent_fields (.mk (some c6Node)) "example.com" (by decide) (by decide)

theorem formatValueChain_eq_spec (n : Node) (orig : String) :
    formatValueChain n orig = specProjection n orig := by
  unfold formatValueChain specProjection
  cases hov : n.observable_value <;> cases hv : n.value <;> cases hn : n.name <;>
    simp only [JField.truthyStr, presentNonEmpty, fieldStr, Option.orElse,
      Option.getD] <;>
    split_ifs <;> simp_all

/-- C4: in both the `exists` and the `created` branch, the reported
observable value follows the fixed fallback chain `observable_value`,
then `value`, then `name`, then the caller's original input. -/
theorem c4_projection (n : Node) (orig status : String) (r : GatewayResult)
    (_hstatus : status = "exists" ∨ status = "created")
    (hr : format_observable_result n orig status = .ok r) :
    r.value = specProjection n orig := by
  unfold format_observable_result at hr
  by_cases hid : n.id = .absent
  · simp [hid] at hr
  · simp only [hid, if_false, if_neg hid] at hr
    have := Except.ok.inj hr
    rw [← this]
    exact formatValueChain_eq_spec n orig

theorem c4_witness : c4Res.value = specProjection c4Node "orig" :=
  c4_projection c4Node "orig" "exists" c4Res (Or.inl rfl) (by decide)

theorem domainCore_eq_spec (s : String) : domainCore s.data = specDomainLike s := by
  unfold domainCore specDomainLike
  cases hrev : (splitOnChar '.' s.data).reverse with
  | nil =>
    exact absurd (List.reverse_eq_nil_iff.mp hrev) (splitOnChar_ne_nil '.' s.data)
  | cons tld rest =>
    have hparts : splitOnChar '.' s.data = rest.reverse ++ [tld] := by
      have := congrArg List.reverse hrev
      simpa using this
    rw [hparts]
    cases rest with
    | nil => simp [isTldL]
    | cons l1 rest' =>
      simp only [List.dropLast_concat, List.getLastD_concat, List.all_reverse,
        List.length_append, List.length_reverse, List.length_cons,
        List.length_singleton]
      have hlen : 2 ≤ rest'.length + 1 + 1 := by omega
      simp [hlen, Bool.and_comm]

/-- C7 counterexample: `DOMAIN_REGEX` accepts a string that contains a
64-character dot-separated label, because Python's `$` anchor also matches
just before a trailing newline; the claim requires every such string to be
rejected. -/
theorem c7_counterexample :
    is_domain c7BadStr = true ∧
    ((splitOnChar '.' c7BadStr.data).getLastD []).length = 64 := by
  refine ⟨by decide, by decide⟩

/-- C7 (amended): the domain test accepts `"example.com"` and rejects
`"-bad.com"`, `"bad-.com"` and a label longer than 63 characters; in
general it accepts exactly the strings of the claimed hostname grammar
(labels 1-63 of `[A-Za-z0-9-]` not starting or ending with `-`, final
label 2-63 alphabetic) — optionally followed by one trailing newline,
which Python's `$` anchor tolerates. -/
theorem c7_domain_grammar :
    is_domain "example.com" = true ∧
    is_domain "-bad.com" = false ∧
    is_domain "bad-.com" = false ∧
    is_domain (String.mk (List.replicate 64 'a') ++ ".com") = false ∧
    ∀ s : String, is_domain s =
      (specDomainLike s || (endsWithNL s && specDomainLike (chompNL s))) := by
  refine ⟨by decide, by decide, by decide, by decide, ?_⟩
  intro s
  unfold is_domain pyDollar
  rw [domainCore_eq_spec s]
  cases hrev : s.data.reverse with
  | nil =>
    have he : endsWithNL s = false := by unfold endsWithNL; rw [hrev]
    rw [he]
    simp
  | cons c r =>
    have hsd : s.data = r.reverse ++ [c] := by
      have := congrArg List.reverse hrev
      simpa using this
    by_cases hc : c = '\n'
    · subst hc
      have he : endsWithNL s = true := by
        unfold endsWithNL; rw [hrev]; simp
      have hch : chompNL s = String.mk r.reverse := by
        unfold chompNL
        rw [he]
        simp [hsd, List.dropLast_concat]
      rw [he, hch]
      simp [domainCore_eq_spec (String.mk r.reverse)]
    · have he : endsWithNL s = false := by
        unfold endsWithNL; rw [hrev]; simp [hc]
      rw [he]
      simp [hc]

/-- C5 counterexample: a creation response that lacks an identifier and an
upstream-reported GraphQL failure surface as the same error kind — both
raise `OpenCTIAPIError` — so `CreationFailed` is not a distinct error kind
from `RemoteError`. -/
theorem c5_counterexample :
    excKindOf (execute_create_mutation
      (GraphQLWire.response [] (⟨none⟩ : CreateData))) = some "OpenCTIAPIError" ∧
    excKindOf (execute_create_mutation
      (GraphQLWire.response ["upstream failure"] (⟨none⟩ : CreateData))) =
      some "OpenCTIAPIError" := by
  refine ⟨by decide, by decide⟩

/-- C5 (amended): a mutation that returns without error but lacks an
identifier raises `OpenCTIAPIError` with the fixed message
`"Failed to create observable."`; an upstream-reported collaborator failure
raises `OpenCTIAPIError` with a `"GraphQL error: "`-prefixed message.  The
two conditions are distinguishable only by message text, never by error
kind — the exception class is the same. -/
theorem c5_creation_failure_message :
    (∀ d : CreateData, createdLacksId d →
      execute_create_mutation (.response [] d) =
        .error (.openCTIAPIError "Failed to create observable.")) ∧
    (∀ (errs : List String) (d : CreateData), errs ≠ [] →
      execute_create_mutation (.response errs d) =
        .error (.openCTIAPIError ("GraphQL error: " ++ toString errs))) ∧
    (∀ x : String, "Failed to create observable." ≠ "GraphQL error: " ++ x) := by
  refine ⟨?_, ?_, ?_⟩
  · intro d hd
    unfold execute_create_mutation graphql_query
    simp only [if_pos rfl]
    cases hc : d.created with
    | none => simp [hc]
    | some n =>
      unfold createdLacksId at hd
      rw [hc] at hd
      rcases hd with h | h
      · simp [hc, h]
      · simp [hc, hasIdKey, h]
  · intro errs d herrs
    unfold execute_create_mutation graphql_query
    simp [herrs]
  · intro x h
    cases x
    exact absurd h (by simp [String.ext_iff])

theorem c5_witness :
    execute_create_mutation (GraphQLWire.response [] (⟨none⟩ : CreateData)) =
      .error (.openCTIAPIError "Failed to create observable.") :=
  c5_creation_failure_message.1 ⟨none⟩ trivial

/-- C8 counterexample: a whitespace-only value is a non-empty string whose
kind cannot be inferred and for which no explicit kind is supplied, yet the
tool rejects it with the `InvalidInput` message, not the `AmbiguousInput`
one (still before any external call). -/
theorem c8_counterexample :
    create_observable " " none oracle0 =
      (.error (.toolError emptyValueMsg), []) ∧
    (" " : String) ≠ "" ∧
    infer_observable_type " " = none ∧
    emptyValueMsg ≠ ambiguousInputMsg := by
  refine ⟨by decide, by decide, by decide, by decide⟩

/-- C8 (amended): for every value that is non-empty after trimming, when no
explicit kind is supplied and the classifier cannot infer one, the tool
fails with the `AmbiguousInput` `ToolError` and issues no external call
(whitespace-only values fail even earlier, with `InvalidInput`, likewise
before any external call). -/
theorem c8_ambiguous_before_calls (value : String) (valueType : Option String)
    (o : CreateOracle)
    (hnb : pyStripS value ≠ "")
    (hvt : valueType = none)
    (hinf : infer_observable_type value = none) :
    create_observable value valueType o =
      (.error (.toolError ambiguousInputMsg), []) := by
  have hne : value ≠ "" := by
    intro h
    subst h
    exact hnb (by decide)
  subst hvt
  unfold create_observable normalize_observable_type inferOrFail
  simp [hne, hnb, hinf]

theorem c8_witness :
    create_observable "not a value!!" none oracle0 =
      (.error (.toolError ambiguousInputMsg), []) :=
  c8_ambiguous_before_calls "not a value!!" none oracle0 (by decide) rfl (by decide)

/-- C9: when the search pipeline runs and matches no candidate, the
enrichment tool fails with the `NotFound` `ToolError` and the only external
call issued is the search — no enrichment call; and in general an
enrichment call only ever appears in the call log against the identifier of
a record the search matched. -/
theorem c9_notfound_blocks_enrichment :
    (∀ (value : String) (valueType : Option String) (o : EnrichOracle)
        (cid : String) (kind : ObservableKind) (d : SearchData),
        value ≠ "" → pyStripS value ≠ "" →
        o.connectorId = some cid → cid ≠ "" →
        normalize_observable_type value valueType = .ok kind →
        graphql_query o.searchWire = .ok d →
        findMatchLoop d.edges (pyLowerS (pyStripS value)) = none →
        ask_virustotal_enrichment value valueType o =
          (.error (.toolError (notFoundMsg value kind)),
           [.searchCall (pyStripS value) (OBSERVABLE_TYPES kind) 10])) ∧
    (∀ (value : String) (valueType : Option String) (o : EnrichOracle)
        (eid : Option String) (cid : String),
        ExtCall.enrichCall eid cid ∈ (ask_virustotal_enrichment value valueType o).2 →
        ∃ n : Node,
          find_observable_by_value (pyStripS value) o.searchWire = .ok (some n) ∧
            eid = nodeIdVal n ∧ n.id ≠ .absent) := by
  constructor
  · intro value valueType o cid kind d h1 h2 hconn hcid hnorm hq hmatch
    unfold ask_virustotal_enrichment
    have hfind : find_observable_by_value (pyStripS value) o.searchWire = .ok none := by
      unfold find_observable_by_value
      rw [hq]
      simp [hmatch]
    simp [h1, h2, hconn, hcid, hnorm, hfind]
  · intro value valueType o eid cid h
    unfold ask_virustotal_enrichment at h
    repeat' split at h
    all_goals simp at h
    all_goals obtain ⟨heid, -⟩ := h
    all_goals subst heid
    all_goals exact ⟨_, by assumption, rfl, by assumption⟩

theorem c9_witness :
    ask_virustotal_enrichment "example.com" none enrichOracle0 =
      (.error (.toolError (notFoundMsg "example.com" ObservableKind.domain)),
       [.searchCall "example.com" (OBSERVABLE_TYPES ObservableKind.domain) 10]) :=
  c9_notfound_blocks_enrichment.1 "example.com" none enrichOracle0 "conn-1"
    ObservableKind.domain ⟨[]⟩ (by decide) (by decide) rfl (by decide)
    (by decide) (by decide) (by decide)

end OpenCTI
